import Mathlib

/-!
Verification of `src/streamer/main.py` (Argserpa/WebRTC): a shallow embedding
of the ffmpeg supervisor, the `/offer` WebRTC signalling handler, the
connection-state observer, and the `/metrics` handler, together with theorems
settling the specification claims.
-/

set_option maxRecDepth 20000

/-! ### Configuration (the ENV block of `main.py`) -/

/-- The environment-derived configuration read at startup
(INPUT, USE_NVENC, HLS_DIR, RECORD_DIR, UDP_PORT, SCALE). -/
structure EnvConfig where
  INPUT : String
  USE_NVENC : Bool
  HLS_DIR : String
  RECORD_DIR : String
  UDP_PORT : Nat
  SCALE : String
deriving DecidableEq

/-- The default configuration: every variable takes the fallback value of its
`os.getenv` call in the source. -/
def defaultConfig : EnvConfig :=
  ⟨"/dev/video0", false, "/hls", "/recordings", 10000, "640:360"⟩

/-- `FFMPEG_LOOP_RESTART_DELAY = 2` from the source. -/
def FFMPEG_LOOP_RESTART_DELAY : Nat := 2

/-! ### `shlex.quote` (Python standard library, used by the source) -/

/-- Characters Python `shlex.quote` considers safe (the complement of its
`_find_unsafe` ASCII pattern): ASCII alphanumerics, underscore, and the
characters at-sign, percent, plus, equals, colon, comma, dot, slash, dash. -/
def shlexSafeChar (c : Char) : Bool :=
  c.isAlphanum || c = '_' || c = '@' || c = '%' || c = '+' || c = '=' ||
  c = ':' || c = ',' || c = '.' || c = '/' || c = '-'

/-- A single-quote character. -/
def squoteChar : Char := Char.ofNat 39

/-- A double-quote character. -/
def dquoteChar : Char := Char.ofNat 34

/-- Python `shlex.quote`: empty strings quote to two single quotes, safe
strings pass through, anything else is wrapped in single quotes with each
embedded single quote replaced by the five-character escape. -/
def shlex_quote (s : String) : String :=
  if s = "" then String.singleton squoteChar ++ String.singleton squoteChar
  else if s.data.all shlexSafeChar then s
  else
    String.singleton squoteChar ++
    String.join (s.data.map fun c =>
      if c = squoteChar then
        String.singleton squoteChar ++ String.singleton dquoteChar ++
        String.singleton squoteChar ++ String.singleton dquoteChar ++
        String.singleton squoteChar
      else String.singleton c) ++
    String.singleton squoteChar

/-! ### String search helpers (also used to state what a command contains) -/

/-- Whether `sub` occurs at the head of `l`, character by character. -/
def charsMatchHere : List Char → List Char → Bool
  | [], _ => true
  | _ :: _, [] => false
  | a :: as, b :: bs => (a == b) && charsMatchHere as bs

/-- Whether `sub` occurs anywhere inside `l`. -/
def charsOccur (sub : List Char) : List Char → Bool
  | [] => charsMatchHere sub []
  | b :: bs => charsMatchHere sub (b :: bs) || charsOccur sub bs

/-- Whether the string `sub` occurs as a contiguous substring of `s`. -/
def strContains (s sub : String) : Bool := charsOccur sub.data s.data

/-- Python `str.startswith`: the characters of `pre` lead those of `s`. -/
def startswith (s pre : String) : Bool := charsMatchHere pre.data s.data

/-! ### ffmpeg command construction -/

/-- Result of `pick_encoder`: the dict with keys codec, pix_fmt, scale, extra. -/
structure EncoderOpts where
  codec : String
  pix_fmt : String
  scale : String
  extra : String
deriving DecidableEq

/-- `pick_encoder`: returns the codec and options according to USE_NVENC. -/
def pick_encoder (cfg : EnvConfig) : EncoderOpts :=
  if cfg.USE_NVENC then ⟨"h264_nvenc", "yuv420p", "scale", ""⟩
  else ⟨"libx264", "yuv420p", "scale", ""⟩

/-- `v4l2_input`: basic options for a V4L2 camera device. -/
def v4l2_input (dev : String) : String :=
  "-f v4l2 " ++ "-video_size 1280x720 " ++ "-framerate 10 " ++
  "-i " ++ shlex_quote dev

/-- `build_ffmpeg_cmd`: the command string the supervisor launches.  The
source computes `enc`, `scale_filter`, `hls_path`, `udp_target` and `tee`,
and logs an intermediate fully hardcoded command, but the string it returns
is the final `cmd` assignment: input sections from `video_in`/`audio_in`
followed by a fixed libx264/mpegts tail ending in the hardcoded UDP output
(the `-f tee` output line is commented out in the source). -/
def build_ffmpeg_cmd (cfg : EnvConfig) : String :=
  let enc := pick_encoder cfg
  let video_in :=
    if startswith cfg.INPUT "/dev/" then v4l2_input cfg.INPUT
    else "-re -i " ++ shlex_quote cfg.INPUT
  let audio_in := "-f alsa -ac 1 -i plughw:1,0"
  let scale_filter := enc.scale ++ "=" ++ cfg.SCALE
  let hls_path := cfg.HLS_DIR ++ "/index.m3u8"
  let udp_target := "udp://127.0.0.1:" ++ toString cfg.UDP_PORT
  let tee :=
    "[f=hls:hls_time=2:hls_list_size=5:hls_flags=delete_segments]" ++ hls_path
    ++ "|[f=mpegts]" ++ udp_target
  "ffmpeg -hide_banner -loglevel warning -y " ++
  video_in ++ " " ++ audio_in ++ " " ++
  "-map 0:v:0 -map 1:a:0 " ++
  "-c:v libx264 -preset ultrafast -tune zerolatency " ++
  "-profile:v baseline -level 3.1 -pix_fmt yuv420p " ++
  "-g 10 -keyint_min 20 -sc_threshold 0 " ++
  "-x264-params repeat-headers=1 " ++
  "-bsf:v h264_metadata=aud=insert " ++
  "-c:a aac -ar 48000 -ac 1 " ++
  "-mpegts_flags resend_headers " ++
  "-muxdelay 0 -muxpreload 0 " ++
  "-f mpegts -flush_packets 1 -pkt_size 1316 udp://127.0.0.1:10000 "

/-! ### The ffmpeg supervisor loop (`ffmpeg_runner`) as an event trace

`ffmpeg_runner` is `while True:` over six observable steps: set the running
gauge to 1, launch the built command, wait for the exit code, log the exit
code, set the running gauge to 0, sleep the fixed restart delay.  We embed it
as the infinite event stream it produces, indexed by step number, for an
arbitrary sequence of exit codes (iteration `k` observes exit code
`codes k`). -/

/-- One observable step of the supervisor loop. -/
inductive RunnerEvent
  | setRunning (v : Int)
  | launch (cmd : String)
  | waitExit (code : Int)
  | logExit (code : Int)
  | sleepFor (d : Nat)
deriving DecidableEq

/-- The six steps of one loop iteration of `ffmpeg_runner`, in source order. -/
def iterationEvents (cfg : EnvConfig) (code : Int) : List RunnerEvent :=
  [RunnerEvent.setRunning 1,
   RunnerEvent.launch (build_ffmpeg_cmd cfg),
   RunnerEvent.waitExit code,
   RunnerEvent.logExit code,
   RunnerEvent.setRunning 0,
   RunnerEvent.sleepFor FFMPEG_LOOP_RESTART_DELAY]

/-- The infinite event stream of `ffmpeg_runner`: step `n` belongs to
iteration `n / 6` and is that iteration's step `n % 6`.  Totality of this
function is the embedding of the loop never returning. -/
def ffmpeg_runner_event (cfg : EnvConfig) (codes : Nat → Int) (n : Nat) :
    RunnerEvent :=
  (iterationEvents cfg (codes (n / 6))).getD (n % 6) (RunnerEvent.sleepFor 0)

/-- The value of the `ffmpeg_running` gauge after the first `n` steps of the
stream (gauges start at 0; only `setRunning` writes it). -/
def ffmpeg_running_after (cfg : EnvConfig) (codes : Nat → Int) : Nat → Int
  | 0 => 0
  | n + 1 =>
    match ffmpeg_runner_event cfg codes n with
    | RunnerEvent.setRunning v => v
    | _ => ffmpeg_running_after cfg codes n

/-! ### Program state: metrics registry and active-session set -/

/-- The prometheus metrics of the source: gauges `webrtc_peers`,
`ffmpeg_running`, `app_uptime_seconds` and counters `webrtc_offers_total`,
`webrtc_errors_total`.  Gauges are integers (a gauge `dec` below zero is
representable, as in prometheus); counters are naturals. -/
structure MetricsState where
  webrtc_peers : Int
  webrtc_offers : Nat
  webrtc_errors : Nat
  ffmpeg_running : Int
  uptime : Int
deriving DecidableEq

/-- The mutable program state the handlers touch: the metrics registry, the
active-session set `pcs` (peer connections by id), the log of `pc.close()`
calls (to count closes), the next fresh connection id, and the module
constant `START_TIME`. -/
structure AppState where
  registry : MetricsState
  pcs : Finset Nat
  closeLog : List Nat
  nextId : Nat
  startTime : Int
deriving DecidableEq

/-- The state at process start: all metrics zero, no sessions. -/
def initialState (t0 : Int) : AppState := ⟨⟨0, 0, 0, 0, 0⟩, ∅, [], 0, t0⟩

/-! ### The `POST /offer` handler -/

/-- A connection state reported by `pc.connectionState`. -/
inductive ConnState
  | new
  | connecting
  | connected
  | disconnected
  | failed
  | closed
deriving DecidableEq

/-- A media track kind; `player.video` and `player.audio` are the relay
inputs the handler may subscribe to. -/
inductive Track
  | video
  | audio
deriving DecidableEq

/-- The answer returned on success; its `sections` list the attached tracks
in the order the handler called `pc.addTrack`. -/
structure Answer where
  sections : List Track
deriving DecidableEq

/-- Where an `/offer` request can raise: `jsonError` if `request.json()`
fails, `keyError` if `params` lacks `sdp` or `type`, `handshakeError` if
`setRemoteDescription`, `createAnswer` or `setLocalDescription` raises. -/
inductive OfferError
  | jsonError
  | keyError
  | handshakeError
deriving DecidableEq

/-- The environment of one `/offer` request: whether the body parses, whether
the two keys are present, whether each awaited handshake step succeeds, and
whether the media player's tracks are ready. -/
structure OfferInput where
  jsonOk : Bool
  hasSdp : Bool
  hasType : Bool
  setRemoteOk : Bool
  createAnswerOk : Bool
  setLocalOk : Bool
  videoReady : Bool
  audioReady : Bool
deriving DecidableEq

/-- The `offer` handler, in source order: parse the JSON body, build the
session description from `params` (raising on a missing key), create the
peer connection, add it to `pcs`, increment `webrtc_offers` and
`webrtc_peers`, register the observer, apply the remote description, attach
the video track then the audio track (each only if ready), create the
answer, apply the local description, and return the answer.  An exception at
any step propagates, leaving the state as mutated so far. -/
def offer (inp : OfferInput) (s : AppState) :
    AppState × Except OfferError Answer :=
  if inp.jsonOk = false then (s, Except.error OfferError.jsonError)
  else if inp.hasSdp = false ∨ inp.hasType = false then
    (s, Except.error OfferError.keyError)
  else
    let pc := s.nextId
    let s1 : AppState :=
      ⟨⟨s.registry.webrtc_peers + 1, s.registry.webrtc_offers + 1,
        s.registry.webrtc_errors, s.registry.ffmpeg_running,
        s.registry.uptime⟩,
       insert pc s.pcs, s.closeLog, s.nextId + 1, s.startTime⟩
    if inp.setRemoteOk = false then (s1, Except.error OfferError.handshakeError)
    else
      let tracks :=
        (if inp.videoReady then [Track.video] else []) ++
        (if inp.audioReady then [Track.audio] else [])
      if inp.createAnswerOk = false then
        (s1, Except.error OfferError.handshakeError)
      else if inp.setLocalOk = false then
        (s1, Except.error OfferError.handshakeError)
      else (s1, Except.ok ⟨tracks⟩)

/-- The `connectionstatechange` observer `on_state_change`: if the reported
state is failed, closed or disconnected, it decrements `webrtc_peers`, calls
`pc.close()` (recorded in `closeLog`), and discards the connection from
`pcs`; otherwise it only logs. -/
def on_state_change (pc : Nat) (st : ConnState) (s : AppState) : AppState :=
  if st = ConnState.failed ∨ st = ConnState.closed ∨
      st = ConnState.disconnected then
    ⟨⟨s.registry.webrtc_peers - 1, s.registry.webrtc_offers,
      s.registry.webrtc_errors, s.registry.ffmpeg_running,
      s.registry.uptime⟩,
     (s.pcs).erase pc, s.closeLog ++ [pc], s.nextId, s.startTime⟩
  else s

/-! ### The `GET /metrics` handler -/

/-- The `metrics` handler: sets the uptime gauge to `now - START_TIME` and
returns the rendered exposition (which reads, and does not write, the
registry). -/
def metrics (now : Int) (s : AppState) : AppState :=
  ⟨⟨s.registry.webrtc_peers, s.registry.webrtc_offers,
    s.registry.webrtc_errors, s.registry.ffmpeg_running,
    now - s.startTime⟩,
   s.pcs, s.closeLog, s.nextId, s.startTime⟩

/-! ### Concrete inputs used by witnesses and counterexamples -/

deriving instance DecidableEq for Except

/-- A configuration with hardware acceleration on, a non-default scale and a
non-default local transport port. -/
def nvencConfig : EnvConfig :=
  ⟨"/dev/video0", true, "/hls", "/recordings", 9999, "1280:720"⟩

/-- A configuration agreeing with `defaultConfig` on `INPUT` but differing in
every other field. -/
def altConfig : EnvConfig :=
  ⟨"/dev/video0", true, "/elsewhere", "/other", 7777, "100:100"⟩

/-- The state at process start with `START_TIME = 0`. -/
def s0 : AppState := initialState 0

/-- A state with one active session (id 0): its offer was counted and the
peers gauge is 1. -/
def s1peer : AppState := ⟨⟨1, 1, 0, 1, 0⟩, {0}, [], 1, 0⟩

/-- A request whose body parses and has both keys but whose
`setRemoteDescription` raises. -/
def inpFailRemote : OfferInput := ⟨true, true, true, false, true, true, true, true⟩

/-- A request in which every step succeeds and both tracks are ready. -/
def inpAllOk : OfferInput := ⟨true, true, true, true, true, true, true, true⟩

/-- A request whose body is not valid JSON. -/
def inpBadJson : OfferInput := ⟨false, true, true, true, true, true, true, true⟩

/-! ### Helper lemmas -/

/-- The returned ffmpeg command is a function of the `INPUT` field alone:
the encoder choice, scale filter, archive paths and UDP target computed
from the rest of the configuration are dead locals. -/
theorem build_ffmpeg_cmd_depends_only_on_INPUT (c1 c2 : EnvConfig)
    (h : c1.INPUT = c2.INPUT) : build_ffmpeg_cmd c1 = build_ffmpeg_cmd c2 := by
  simp only [build_ffmpeg_cmd, h]

/-- On a terminal connection state the observer decrements the peers gauge,
records a `pc.close()` call, and erases the connection from the set. -/
theorem on_state_change_terminal (pc : Nat) (st : ConnState) (s : AppState)
    (h : st = ConnState.failed ∨ st = ConnState.closed ∨
      st = ConnState.disconnected) :
    on_state_change pc st s =
      ⟨⟨s.registry.webrtc_peers - 1, s.registry.webrtc_offers,
        s.registry.webrtc_errors, s.registry.ffmpeg_running,
        s.registry.uptime⟩,
       (s.pcs).erase pc, s.closeLog ++ [pc], s.nextId, s.startTime⟩ := by
  unfold on_state_change
  rw [if_pos h]

/-! ### Claims -/

/-- Claim C1, counterexample.  At the default configuration the command
returned by `build_ffmpeg_cmd` contains no HLS output, no `tee` fan-out and
no reference to the archive path `HLS_DIR/index.m3u8`; its only output is
the hardcoded UDP mpegts stream.  So the claim that the returned command
specifies a fan-out simultaneously writing a segmented HLS archive is
false. -/
theorem claim_C1_counterexample :
    strContains (build_ffmpeg_cmd defaultConfig) "hls" = false ∧
    strContains (build_ffmpeg_cmd defaultConfig) "tee" = false ∧
    strContains (build_ffmpeg_cmd defaultConfig)
      (defaultConfig.HLS_DIR ++ "/index.m3u8") = false ∧
    strContains (build_ffmpeg_cmd defaultConfig) "udp://127.0.0.1:10000" = true := by
  decide

/-- Claim C1, amended: for every configuration the command returned by
`build_ffmpeg_cmd` depends only on the source identifier `INPUT` — in
particular the archive directories play no role in it — and (at the default
configuration) it specifies the single hardcoded local UDP transport stream
and no HLS or tee output.  The tee fan-out specification is computed but
unused. -/
theorem claim_C1_cmd_single_udp_stream (c1 c2 : EnvConfig)
    (h : c1.INPUT = c2.INPUT) :
    build_ffmpeg_cmd c1 = build_ffmpeg_cmd c2 ∧
    strContains (build_ffmpeg_cmd defaultConfig) "udp://127.0.0.1:10000" = true ∧
    strContains (build_ffmpeg_cmd defaultConfig) "hls" = false ∧
    strContains (build_ffmpeg_cmd defaultConfig) "tee" = false :=
  ⟨build_ffmpeg_cmd_depends_only_on_INPUT c1 c2 h, by decide, by decide, by decide⟩

/-- Claim C1, witness: the amended theorem applied to the default
configuration and a configuration differing in every field except `INPUT`. -/
theorem claim_C1_witness :
    build_ffmpeg_cmd defaultConfig = build_ffmpeg_cmd altConfig ∧
    strContains (build_ffmpeg_cmd defaultConfig) "udp://127.0.0.1:10000" = true ∧
    strContains (build_ffmpeg_cmd defaultConfig) "hls" = false ∧
    strContains (build_ffmpeg_cmd defaultConfig) "tee" = false :=
  claim_C1_cmd_single_udp_stream defaultConfig altConfig rfl

/-- Claim C2, counterexample.  With `USE_NVENC` set, scale `1280:720` and
port 9999, `pick_encoder` selects `h264_nvenc`, yet the returned command
still uses `libx264`, contains no scale filter for the configured scale, and
targets the hardcoded port 10000 rather than the configured 9999. -/
theorem claim_C2_counterexample :
    nvencConfig.USE_NVENC = true ∧
    (pick_encoder nvencConfig).codec = "h264_nvenc" ∧
    strContains (build_ffmpeg_cmd nvencConfig) "h264_nvenc" = false ∧
    strContains (build_ffmpeg_cmd nvencConfig) "libx264" = true ∧
    nvencConfig.SCALE = "1280:720" ∧
    strContains (build_ffmpeg_cmd nvencConfig) "scale=1280:720" = false ∧
    nvencConfig.UDP_PORT = 9999 ∧
    strContains (build_ffmpeg_cmd nvencConfig) "udp://127.0.0.1:9999" = false ∧
    strContains (build_ffmpeg_cmd nvencConfig) "udp://127.0.0.1:10000" = true := by
  decide

/-- Claim C2, amended: `pick_encoder` does select `h264_nvenc` when the
hardware flag is set and `libx264` otherwise, but its result is not used by
the returned command, which is identical to the command of the configuration
with the flag cleared, the default scale and the default port (only `INPUT`
matters); the command always encodes with `libx264`, carries no scale filter
derived from the configured scale, and always targets the hardcoded UDP
port 10000. -/
theorem claim_C2_cmd_ignores_encoder_config (cfg : EnvConfig) :
    (pick_encoder cfg).codec =
      (if cfg.USE_NVENC then "h264_nvenc" else "libx264") ∧
    build_ffmpeg_cmd cfg =
      build_ffmpeg_cmd ⟨cfg.INPUT, false, "/hls", "/recordings", 10000, "640:360"⟩ ∧
    strContains (build_ffmpeg_cmd defaultConfig) "libx264" = true ∧
    strContains (build_ffmpeg_cmd defaultConfig)
      ("scale=" ++ defaultConfig.SCALE) = false := by
  refine ⟨?_, build_ffmpeg_cmd_depends_only_on_INPUT _ _ rfl, by decide, by decide⟩
  cases hc : cfg.USE_NVENC <;> simp [pick_encoder, hc]

/-- Claim C3, counterexample.  A request that parses but whose
`setRemoteDescription` raises propagates the exception, yet
`webrtc_errors_total` stays at 0: the handshake exception does not increment
the error counter (there is no exception handler around the sequence, and
the counter is never incremented anywhere). -/
theorem claim_C3_counterexample :
    (offer inpFailRemote s0).2 = Except.error OfferError.handshakeError ∧
    s0.registry.webrtc_errors = 0 ∧
    (offer inpFailRemote s0).1.registry.webrtc_errors = 0 := by
  decide

/-- Claim C3, amended: when the handshake sequence raises, the exception is
propagated to the caller, but `webrtc_errors_total` is left unchanged — the
counter is declared and never incremented, so it increments in no case at
all. -/
theorem claim_C3_errors_never_incremented (inp : OfferInput) (s : AppState)
    (h1 : inp.jsonOk = true) (h2 : inp.hasSdp = true) (h3 : inp.hasType = true)
    (h4 : (inp.setRemoteOk && inp.createAnswerOk && inp.setLocalOk) = false) :
    (offer inp s).2 = Except.error OfferError.handshakeError ∧
    (offer inp s).1.registry.webrtc_errors = s.registry.webrtc_errors := by
  cases hr : inp.setRemoteOk <;> cases hc : inp.createAnswerOk <;>
    cases hl : inp.setLocalOk <;> simp_all [offer]

/-- Claim C3, witness: the amended theorem applied to a concrete request
whose `setRemoteDescription` raises, from the start state. -/
theorem claim_C3_witness :
    (offer inpFailRemote s0).2 = Except.error OfferError.handshakeError ∧
    (offer inpFailRemote s0).1.registry.webrtc_errors =
      s0.registry.webrtc_errors :=
  claim_C3_errors_never_incremented inpFailRemote s0 rfl rfl rfl rfl

/-- Claim C4, counterexample.  From a state with one active session and the
peers gauge at 1, firing the state-change observer twice with the terminal
state `failed` decrements `webrtc_peers` twice (1 to 0 to -1) and calls
`pc.close()` twice: the cleanup is not idempotent, so "decremented exactly
once in total" is false. -/
theorem claim_C4_counterexample :
    s1peer.registry.webrtc_peers = 1 ∧
    (on_state_change 0 ConnState.failed s1peer).registry.webrtc_peers = 0 ∧
    (on_state_change 0 ConnState.failed
      (on_state_change 0 ConnState.failed s1peer)).registry.webrtc_peers = -1 ∧
    (on_state_change 0 ConnState.failed
      (on_state_change 0 ConnState.failed s1peer)).closeLog = [0, 0] := by
  decide

/-- Claim C4, amended: every terminal firing of the observer decrements the
gauge and calls `pc.close()` again — after two terminal firings the gauge
has decreased by two and close was called twice — while only the removal
from the active set is idempotent (`discard` on a set). -/
theorem claim_C4_cleanup_per_firing (pc : Nat) (st : ConnState) (s : AppState)
    (h : st = ConnState.failed ∨ st = ConnState.closed ∨
      st = ConnState.disconnected) :
    (on_state_change pc st (on_state_change pc st s)).registry.webrtc_peers =
      s.registry.webrtc_peers - 2 ∧
    (on_state_change pc st (on_state_change pc st s)).closeLog =
      s.closeLog ++ [pc, pc] ∧
    (on_state_change pc st (on_state_change pc st s)).pcs = s.pcs.erase pc ∧
    (on_state_change pc st s).pcs = s.pcs.erase pc := by
  rw [on_state_change_terminal pc st s h, on_state_change_terminal pc st _ h]
  refine ⟨?_, ?_, ?_, rfl⟩
  · show s.registry.webrtc_peers - 1 - 1 = s.registry.webrtc_peers - 2
    omega
  · show (s.closeLog ++ [pc]) ++ [pc] = s.closeLog ++ [pc, pc]
    simp
  · exact Finset.erase_idem

/-- Claim C4, witness: the amended theorem applied to the terminal state
`failed`, a concrete session id and a concrete one-session state. -/
theorem claim_C4_witness :
    (on_state_change 0 ConnState.failed
      (on_state_change 0 ConnState.failed s1peer)).registry.webrtc_peers =
      s1peer.registry.webrtc_peers - 2 ∧
    (on_state_change 0 ConnState.failed
      (on_state_change 0 ConnState.failed s1peer)).closeLog =
      s1peer.closeLog ++ [0, 0] ∧
    (on_state_change 0 ConnState.failed
      (on_state_change 0 ConnState.failed s1peer)).pcs = s1peer.pcs.erase 0 ∧
    (on_state_change 0 ConnState.failed s1peer).pcs = s1peer.pcs.erase 0 :=
  claim_C4_cleanup_per_firing 0 ConnState.failed s1peer (Or.inl rfl)

/-- Claim C5, counterexample.  From the empty start state, a request whose
handshake raises leaves connection 0 in the active set `pcs` (and the peers
gauge at 1): the failed session is not discarded, so "not a member of the
active set after the handler completes" is false. -/
theorem claim_C5_counterexample :
    (offer inpFailRemote s0).2 = Except.error OfferError.handshakeError ∧
    0 ∈ (offer inpFailRemote s0).1.pcs ∧
    (offer inpFailRemote s0).1.pcs ≠ s0.pcs ∧
    (offer inpFailRemote s0).1.registry.webrtc_peers = 1 := by
  decide

/-- Claim C5, amended: the connection is added to `pcs` before the handshake
begins and is not removed when the handshake raises, so after the handler
completes the new session is in the active set whatever the outcome —
sessions with a failed handshake stay registered until their state-change
observer fires terminally. -/
theorem claim_C5_failed_session_remains (inp : OfferInput) (s : AppState)
    (h1 : inp.jsonOk = true) (h2 : inp.hasSdp = true) (h3 : inp.hasType = true) :
    s.nextId ∈ (offer inp s).1.pcs := by
  cases hr : inp.setRemoteOk <;> cases hc : inp.createAnswerOk <;>
    cases hl : inp.setLocalOk <;> simp_all [offer]

/-- Claim C5, witness: the amended theorem applied to a concrete request
whose handshake raises, from the start state. -/
theorem claim_C5_witness : s0.nextId ∈ (offer inpFailRemote s0).1.pcs :=
  claim_C5_failed_session_remains inpFailRemote s0 rfl rfl rfl

/-- Claim C6, counterexample.  With both tracks ready and every step
succeeding, the handler attaches the video track first and the audio track
second, so the answer's sections are video then audio — not audio before
video as claimed. -/
theorem claim_C6_counterexample :
    (offer inpAllOk s0).2 = Except.ok ⟨[Track.video, Track.audio]⟩ ∧
    [Track.video, Track.audio] ≠ [Track.audio, Track.video] := by
  decide

/-- Claim C6, amended: when both media sources are ready and the handshake
succeeds, the handler subscribes to the video relay output before the audio
relay output, so the video section precedes the audio section in the
returned answer. -/
theorem claim_C6_video_before_audio (inp : OfferInput) (s : AppState)
    (h1 : inp.jsonOk = true) (h2 : inp.hasSdp = true) (h3 : inp.hasType = true)
    (h4 : inp.setRemoteOk = true) (h5 : inp.createAnswerOk = true)
    (h6 : inp.setLocalOk = true) (hv : inp.videoReady = true)
    (ha : inp.audioReady = true) :
    (offer inp s).2 = Except.ok ⟨[Track.video, Track.audio]⟩ := by
  simp [offer, h1, h2, h3, h4, h5, h6, hv, ha]

/-- Claim C6, witness: the amended theorem applied to a concrete
all-successful request with both tracks ready. -/
theorem claim_C6_witness :
    (offer inpAllOk s0).2 = Except.ok ⟨[Track.video, Track.audio]⟩ :=
  claim_C6_video_before_audio inpAllOk s0 rfl rfl rfl rfl rfl rfl rfl rfl

/-- Claim C7, counterexample.  A request whose body is not valid JSON raises
before `webrtc_offers.inc()` is reached: the counter stays at 0, so "exactly
once per request, including when the body is malformed" is false. -/
theorem claim_C7_counterexample :
    (offer inpBadJson s0).2 = Except.error OfferError.jsonError ∧
    s0.registry.webrtc_offers = 0 ∧
    (offer inpBadJson s0).1.registry.webrtc_offers = 0 := by
  decide

/-- Claim C7, amended: `webrtc_offers_total` is incremented exactly once for
every request whose body parses and carries both keys — regardless of
whether the handshake later raises — and is not incremented for a request
that fails JSON parsing or lacks a key. -/
theorem claim_C7_offers_count (inp : OfferInput) (s : AppState) :
    (offer inp s).1.registry.webrtc_offers =
      (if inp.jsonOk && inp.hasSdp && inp.hasType then
        s.registry.webrtc_offers + 1
      else s.registry.webrtc_offers) := by
  cases hj : inp.jsonOk <;> cases hs : inp.hasSdp <;> cases ht : inp.hasType <;>
    cases hr : inp.setRemoteOk <;> cases hc : inp.createAnswerOk <;>
      cases hl : inp.setLocalOk <;> simp_all [offer]

/-- Position of a step inside its iteration: step `6*k + r` (with `r < 6`) is
step `r` of iteration `k`. -/
theorem ffmpeg_runner_event_at (cfg : EnvConfig) (codes : Nat → Int)
    (k r : Nat) (hr : r < 6) :
    ffmpeg_runner_event cfg codes (6 * k + r) =
      (iterationEvents cfg (codes k)).getD r (RunnerEvent.sleepFor 0) := by
  unfold ffmpeg_runner_event
  have h1 : (6 * k + r) % 6 = r := by omega
  have h2 : (6 * k + r) / 6 = k := by omega
  rw [h1, h2]

/-- Unfolding of the gauge trace at a successor step. -/
theorem ffmpeg_running_after_succ (cfg : EnvConfig) (codes : Nat → Int)
    (n : Nat) :
    ffmpeg_running_after cfg codes (n + 1) =
      match ffmpeg_runner_event cfg codes n with
      | RunnerEvent.setRunning v => v
      | _ => ffmpeg_running_after cfg codes n := rfl

/-- Claim C8: the supervisor's event stream is total — every iteration `k`
(for every exit-code sequence) performs its six steps and is followed by the
start of iteration `k + 1`, so the loop never returns; on each exit it logs
the exit code, sets the running gauge to 0, sleeps the fixed delay and
launches a new process, and the gauge reads 0 from the step after the
gauge-reset until the next iteration's `setRunning 1` executes. -/
theorem claim_C8_runner_restarts_forever (cfg : EnvConfig)
    (codes : Nat → Int) (k : Nat) :
    ffmpeg_runner_event cfg codes (6 * k) = RunnerEvent.setRunning 1 ∧
    ffmpeg_runner_event cfg codes (6 * k + 1) =
      RunnerEvent.launch (build_ffmpeg_cmd cfg) ∧
    ffmpeg_runner_event cfg codes (6 * k + 2) =
      RunnerEvent.waitExit (codes k) ∧
    ffmpeg_runner_event cfg codes (6 * k + 3) =
      RunnerEvent.logExit (codes k) ∧
    ffmpeg_runner_event cfg codes (6 * k + 4) = RunnerEvent.setRunning 0 ∧
    ffmpeg_runner_event cfg codes (6 * k + 5) =
      RunnerEvent.sleepFor FFMPEG_LOOP_RESTART_DELAY ∧
    ffmpeg_runner_event cfg codes (6 * (k + 1)) = RunnerEvent.setRunning 1 ∧
    ffmpeg_runner_event cfg codes (6 * (k + 1) + 1) =
      RunnerEvent.launch (build_ffmpeg_cmd cfg) ∧
    ffmpeg_running_after cfg codes (6 * k + 5) = 0 ∧
    ffmpeg_running_after cfg codes (6 * k + 6) = 0 ∧
    ffmpeg_running_after cfg codes (6 * k + 7) = 1 := by
  have e4 : ffmpeg_runner_event cfg codes (6 * k + 4) =
      RunnerEvent.setRunning 0 :=
    ffmpeg_runner_event_at cfg codes k 4 (by omega)
  have e5 : ffmpeg_runner_event cfg codes (6 * k + 5) =
      RunnerEvent.sleepFor FFMPEG_LOOP_RESTART_DELAY :=
    ffmpeg_runner_event_at cfg codes k 5 (by omega)
  have e6 : ffmpeg_runner_event cfg codes (6 * k + 6) =
      RunnerEvent.setRunning 1 := by
    have h : 6 * k + 6 = 6 * (k + 1) := by omega
    rw [h]
    exact ffmpeg_runner_event_at cfg codes (k + 1) 0 (by omega)
  have g5 : ffmpeg_running_after cfg codes (6 * k + 5) = 0 := by
    have h : 6 * k + 5 = (6 * k + 4) + 1 := by omega
    rw [h, ffmpeg_running_after_succ, e4]
  have g6 : ffmpeg_running_after cfg codes (6 * k + 6) = 0 := by
    have h : 6 * k + 6 = (6 * k + 5) + 1 := by omega
    rw [h, ffmpeg_running_after_succ, e5]
    exact g5
  have g7 : ffmpeg_running_after cfg codes (6 * k + 7) = 1 := by
    have h : 6 * k + 7 = (6 * k + 6) + 1 := by omega
    rw [h, ffmpeg_running_after_succ, e6]
  exact ⟨ffmpeg_runner_event_at cfg codes k 0 (by omega),
    ffmpeg_runner_event_at cfg codes k 1 (by omega),
    ffmpeg_runner_event_at cfg codes k 2 (by omega),
    ffmpeg_runner_event_at cfg codes k 3 (by omega),
    e4, e5,
    ffmpeg_runner_event_at cfg codes (k + 1) 0 (by omega),
    ffmpeg_runner_event_at cfg codes (k + 1) 1 (by omega),
    g5, g6, g7⟩

/-- Claim C9: a request whose body fails to parse or lacks the `sdp` or
`type` key raises before any observable state change — the state (metrics,
active set, next connection id) is returned untouched and the error is a
parse or key error. -/
theorem claim_C9_malformed_no_state_change (inp : OfferInput) (s : AppState)
    (h : (inp.jsonOk && inp.hasSdp && inp.hasType) = false) :
    (offer inp s).1 = s ∧
    ((offer inp s).2 = Except.error OfferError.jsonError ∨
      (offer inp s).2 = Except.error OfferError.keyError) := by
  cases hj : inp.jsonOk <;> cases hs : inp.hasSdp <;> cases ht : inp.hasType <;>
    simp_all [offer]

/-- Claim C9, witness: the theorem applied to a concrete request with an
unparseable body, from the start state. -/
theorem claim_C9_witness :
    (offer inpBadJson s0).1 = s0 ∧
    ((offer inpBadJson s0).2 = Except.error OfferError.jsonError ∨
      (offer inpBadJson s0).2 = Except.error OfferError.keyError) :=
  claim_C9_malformed_no_state_change inpBadJson s0 rfl

/-- Claim C10: a `GET /metrics` scrape sets the uptime gauge to the elapsed
time since process start and changes nothing else: every other metric, the
active-session set, the close log, the id counter and the start time are
unchanged. -/
theorem claim_C10_metrics_frame (now : Int) (s : AppState) :
    (metrics now s).registry.uptime = now - s.startTime ∧
    (metrics now s).registry.webrtc_peers = s.registry.webrtc_peers ∧
    (metrics now s).registry.webrtc_offers = s.registry.webrtc_offers ∧
    (metrics now s).registry.webrtc_errors = s.registry.webrtc_errors ∧
    (metrics now s).registry.ffmpeg_running = s.registry.ffmpeg_running ∧
    (metrics now s).pcs = s.pcs ∧
    (metrics now s).closeLog = s.closeLog ∧
    (metrics now s).nextId = s.nextId ∧
    (metrics now s).startTime = s.startTime :=
  ⟨rfl, rfl, rfl, rfl, rfl, rfl, rfl, rfl, rfl⟩
